import Mathlib

/-!
Shallow embedding of the self-healing core of the `ai-desktop-assistant`
repository: `core/watchdog.py`, `core/self_heal_planner.py`,
`core/repair_engine.py`, `core/git_helper.py`, `core/self_update.py`,
`core/approval.py` and `core/autonomous_coder.py`.

External effects (subprocess calls, the LLM collaborator, the file system,
audio devices, wall-clock time) are modelled as explicit oracle parameters,
and functions that perform such effects additionally return the ordered list
of effect events they carry out.  Python exceptions are modelled with
`Except`, Python timestamps with integer epoch seconds, and Python string
operations with executable character-list functions defined below.
-/

/-- Boolean test that `n` is a leading segment of `h`, character by
character (the building block for the Python substring tests). -/
def leadsList : List Char → List Char → Bool
  | [], _ => true
  | _ :: _, [] => false
  | a :: as, b :: bs => a == b && leadsList as bs

/-- Models the Python membership test `needle in hay` on strings:
`needle` occurs contiguously somewhere in `hay`. -/
def containsSub (hay needle : String) : Bool :=
  (List.range (hay.toList.length + 1)).any
    (fun i => leadsList needle.toList (hay.toList.drop i))

/-- Models Python `hay.endswith(t)`. -/
def endsWithSub (hay t : String) : Bool :=
  leadsList t.toList.reverse hay.toList.reverse

/-- Models Python `', '.join(parts)`. -/
def joinComma : List String → String
  | [] => ""
  | [a] => a
  | a :: rest => a ++ ", " ++ joinComma rest

/-- Models Python `s.lower()` for the ASCII strings this system handles. -/
def strLower (s : String) : String := ⟨s.toList.map Char.toLower⟩

/-- ASCII whitespace, as stripped by Python `s.strip()`. -/
def isSpaceChar (c : Char) : Bool := c == ' ' || c == '\t' || c == '\n' || c == '\r'

/-- Models Python `s.strip()`. -/
def strTrim (s : String) : String :=
  ⟨((s.toList.dropWhile isSpaceChar).reverse.dropWhile isSpaceChar).reverse⟩

/-- Models Python slicing `s[:n]` (by code point, as Python slices). -/
def strTake (s : String) (n : Nat) : String := ⟨s.toList.take n⟩

/-- Split a character list at every occurrence of `c` (the separator is
dropped; empty segments are kept, as in Python `s.split(sep)`). -/
def splitListOn (c : Char) : List Char → List (List Char)
  | [] => [[]]
  | x :: xs =>
      let r := splitListOn c xs
      if x == c then [] :: r
      else
        match r with
        | h :: t => (x :: h) :: t
        | [] => [[x]]

/-- Models Python `s.split(sep)` for a one-character separator. -/
def splitOnChar (c : Char) (s : String) : List String :=
  (splitListOn c s.toList).map (fun l => ⟨l⟩)

/-- Models Python `s.replace("_", " ")` (a one-character pattern, so the
replacement is character-wise). -/
def replaceUnderscores (s : String) : String :=
  ⟨s.toList.map (fun c => if c == '_' then ' ' else c)⟩

/-- The apostrophe character, used inside embedded Python string literals. -/
def aposChar : String := String.singleton (Char.ofNat 39)

namespace Watchdog

/-- `HealthStatus` from `core/watchdog.py`. -/
inductive HealthStatus
  | healthy
  | degraded
  | failed
  | unknown
deriving DecidableEq, Repr

/-- `ComponentHealth` from `core/watchdog.py` (metrics kept as an opaque
key/value list; no claim inspects them). -/
structure ComponentHealth where
  name : String
  status : HealthStatus
  last_check : Int
  message : String := ""
  metrics : List (String × String) := []
deriving DecidableEq, Repr

/-- `DiagnosticReport` from `core/watchdog.py`; the Python dict
`components` is an ordered association list with unique keys. -/
structure DiagnosticReport where
  timestamp : Int
  components : List (String × ComponentHealth)
  overall_status : HealthStatus
  issues : List String
  recommendations : List String
deriving DecidableEq, Repr

/-- Evaluating the list literal `checks = [self._check_mic_alive(), ...]`
in `run_diagnostics`: the health-checks run left to right and the first
raised exception propagates out of the whole list evaluation. -/
def gatherChecks : List (Except String ComponentHealth) → Except String (List ComponentHealth)
  | [] => Except.ok []
  | Except.error e :: _ => Except.error e
  | Except.ok c :: rest => (gatherChecks rest).map (fun cs => c :: cs)

/-- Insertion into a Python dict modelled as an ordered association list:
an existing key is overwritten in place, a new key is appended. -/
def dictInsert (k : String) (v : ComponentHealth) :
    List (String × ComponentHealth) → List (String × ComponentHealth)
  | [] => [(k, v)]
  | (k0, v0) :: rest => if k0 == k then (k, v) :: rest else (k0, v0) :: dictInsert k v rest

/-- The dict comprehension `{c.name: c for c in checks}`. -/
def dictOfChecks (checks : List ComponentHealth) : List (String × ComponentHealth) :=
  checks.foldl (fun d c => dictInsert c.name c d) []

/-- The overall-status computation of `run_diagnostics` (watchdog.py
lines 341-348). -/
def overallOf (statuses : List HealthStatus) : HealthStatus :=
  if HealthStatus.failed ∈ statuses then HealthStatus.failed
  else if HealthStatus.degraded ∈ statuses then HealthStatus.degraded
  else HealthStatus.healthy

/-- Recommendations appended for a `failed` component (watchdog.py
lines 355-368). -/
def recsForFailed (c : ComponentHealth) : List String :=
  if c.name == "asr" then
    "restart_asr" :: (if containsSub (strLower c.message) "cublas" then ["switch_asr_to_cpu"] else [])
  else if c.name == "microphone" then ["restart_audio_device"]
  else if c.name == "tts" then ["restart_tts"]
  else if c.name == "hotkeys" then ["rebind_hotkeys"]
  else if c.name == "ptt" then ["reset_ptt_state"]
  else []

/-- Recommendations appended for a `degraded` component (watchdog.py
lines 369-374). -/
def recsForDegraded (c : ComponentHealth) : List String :=
  (if containsSub (strLower c.message) "cublas" then ["switch_asr_to_cpu"] else []) ++
    (if containsSub (strLower c.message) "too fast" then ["restart_tts"] else [])

/-- The issue string `f"{c.name}: {c.message}"`. -/
def issueLine (c : ComponentHealth) : String := c.name ++ ": " ++ c.message

/-- The issue/recommendation collection loop of `run_diagnostics`
(watchdog.py lines 350-374). -/
def collectIssues (checks : List ComponentHealth) : List String × List String :=
  checks.foldl
    (fun acc c =>
      if c.status == HealthStatus.failed then
        (acc.1 ++ [issueLine c], acc.2 ++ recsForFailed c)
      else if c.status == HealthStatus.degraded then
        (acc.1 ++ [issueLine c], acc.2 ++ recsForDegraded c)
      else acc)
    ([], [])

/-- `list(dict.fromkeys(recommendations))`: stable deduplication keeping
the first occurrence of each element. -/
def dedupKeepFirst (l : List String) : List String :=
  l.foldl (fun acc x => if acc.contains x then acc else acc ++ [x]) []

/-- `Watchdog.run_diagnostics` (watchdog.py lines 324-392).  The six
health-check call sites are oracle parameters (each check inspects live
subsystem objects); an exception inside any of them propagates. -/
def run_diagnostics (now : Int)
    (mic asr tts hotkeys avatar ptt : Except String ComponentHealth) :
    Except String DiagnosticReport :=
  match gatherChecks [mic, asr, tts, hotkeys, avatar, ptt] with
  | Except.error e => Except.error e
  | Except.ok checks =>
      let (issues, recs) := collectIssues checks
      Except.ok
        { timestamp := now
          components := dictOfChecks checks
          overall_status := overallOf (checks.map (fun c => c.status))
          issues := issues
          recommendations := dedupKeepFirst recs }

/-- The diagnostics portion of one `Watchdog._poll_loop` iteration
(watchdog.py lines 421-439): `run_diagnostics` runs inside try/except, an
exception is caught and logged and the iteration produces no report. -/
def pollCycleReport (d : Except String DiagnosticReport) : Option DiagnosticReport :=
  match d with
  | Except.ok r => some r
  | Except.error _ => none

end Watchdog

namespace Planner

open Watchdog

/-- `RepairPlanItem` from `core/self_heal_planner.py`. -/
structure RepairPlanItem where
  action : String
  reason : String
  auto : Bool
  priority : Nat
deriving DecidableEq, Repr

/-- `SelfHealPlanner.AUTO_SAFE_ACTIONS`. -/
def AUTO_SAFE_ACTIONS : List String :=
  ["reset_ptt_state", "rebind_hotkeys", "restart_tts", "restart_audio_device",
   "switch_asr_to_cpu", "restart_asr", "reconnect_avatar", "repair_mic_routine"]

/-- `SelfHealPlanner.MAX_AUTO_ACTIONS`. -/
def MAX_AUTO_ACTIONS : Nat := 5

/-- The `priority_map` dict of `create_plan` with its `.get(rec, 10)`
default. -/
def priorityOf (rec : String) : Nat :=
  if rec == "reset_ptt_state" then 1
  else if rec == "rebind_hotkeys" then 2
  else if rec == "restart_audio_device" then 3
  else if rec == "switch_asr_to_cpu" then 4
  else if rec == "restart_asr" then 5
  else if rec == "restart_tts" then 6
  else if rec == "reconnect_avatar" then 7
  else if rec == "repair_mic_routine" then 0
  else 10

/-- The keyword table of `SelfHealPlanner._matches_issue`. -/
def matchKeywords (action : String) : List String :=
  if action == "restart_asr" then ["asr", "transcription", "speech recognition", "cublas"]
  else if action == "switch_asr_to_cpu" then ["cuda", "cublas", "gpu", "latency"]
  else if action == "restart_tts" then ["tts", "speech", "playback", "audio"]
  else if action == "restart_audio_device" then ["microphone", "mic", "audio frame", "recording"]
  else if action == "rebind_hotkeys" then ["hotkey", "keyboard", "listener"]
  else if action == "reset_ptt_state" then ["ptt", "recording", "stuck"]
  else if action == "reconnect_avatar" then ["avatar", "vtube", "websocket"]
  else []

/-- `SelfHealPlanner._matches_issue`. -/
def matchesIssue (action issue : String) : Bool :=
  (matchKeywords action).any (fun kw => containsSub (strLower issue) kw)

/-- The reason search of `create_plan`: the first issue that contains the
action name with underscores replaced by spaces, or that matches the
keyword table; fallback "Detected issue". -/
def reasonFor (rec : String) (issues : List String) : String :=
  match issues.find? (fun issue =>
      containsSub (strLower issue) (replaceUnderscores rec) || matchesIssue rec issue) with
  | some issue => issue
  | none => "Detected issue"

/-- Stable insertion into a priority-sorted list: an existing item with
equal priority keeps its earlier place, matching Python stable sort. -/
def insertByPriority (p : RepairPlanItem) : List RepairPlanItem → List RepairPlanItem
  | [] => [p]
  | q :: qs => if q.priority ≤ p.priority then q :: insertByPriority p qs else p :: q :: qs

/-- `plan.sort(key=lambda x: x.priority)`: Python list sort is stable, and
every stable sort by the same key computes the same list, so stable
insertion sort is an exact model. -/
def sortByPriority : List RepairPlanItem → List RepairPlanItem
  | [] => []
  | p :: ps => insertByPriority p (sortByPriority ps)

/-- The auto-cap loop of `create_plan` (self_heal_planner.py lines 99-104):
walk the sorted plan keeping a running count of auto items and flip
`auto` off once the count passes `MAX_AUTO_ACTIONS`. -/
def capAuto (count : Nat) : List RepairPlanItem → List RepairPlanItem
  | [] => []
  | p :: ps =>
      if p.auto then
        if count + 1 > MAX_AUTO_ACTIONS then { p with auto := false } :: capAuto (count + 1) ps
        else p :: capAuto (count + 1) ps
      else p :: capAuto count ps

/-- `SelfHealPlanner.create_plan` (self_heal_planner.py lines 58-107). -/
def create_plan (report : DiagnosticReport) : List RepairPlanItem :=
  let plan := report.recommendations.map (fun rec =>
    { action := rec
      reason := reasonFor rec report.issues
      auto := AUTO_SAFE_ACTIONS.contains rec
      priority := priorityOf rec })
  let sorted := sortByPriority plan
  let autoCount := (sorted.filter (fun p => p.auto)).length
  if autoCount > MAX_AUTO_ACTIONS then capAuto 0 sorted else sorted

end Planner

namespace AutoCoder

/-- `FixResult` from `core/autonomous_coder.py`. -/
structure FixResult where
  success : Bool
  message : String
  patch_applied : Bool
  tests_passed : Bool
  files_changed : List String
  rollback_performed : Bool
  explanation : String
  model_used : String
deriving DecidableEq, Repr

/-- The dict returned by the `analyze_error` collaborator (an LLM call),
with the fields `analyze_and_fix` reads from it. -/
structure AnalysisResult where
  analysis : String
  target_file : String
  confidence : Rat
  suggested_fix : String
deriving Repr

/-- The dict returned by the `generate_code_patch` collaborator.  A
missing "explanation" key is modelled by `none` (the code reads it with
`.get("explanation", "Patch generation failed")`). -/
structure PatchGenResult where
  success : Bool
  explanation : Option String
  patch : String
  model : String
deriving DecidableEq, Repr

/-- Effect events of the patch-and-test pipeline.  Constructors exist for
every primitive named by the specified escalation sequence; the ones
`analyze_and_fix` never performs simply never occur in its traces. -/
inductive CoderEvent
  | snapshotEv (label : String)
  | startBranchEv (p : String)
  | getPatchEv (target : String)
  | applyPatchEv (target : String)
  | validateDiffEv (expected : List String)
  | runTestsEv
  | commitEv (msg : String)
  | mergeMainEv
  | revertFileEv (target : String)
  | tagFailureEv (reason : String)
  | logActionEv (action : String) (explanation : String)
  | writeFailLogEv (issue : String)
deriving DecidableEq, Repr

/-- The operation kind of an event, forgetting its payload. -/
inductive CoderKind
  | snapshotK
  | branchK
  | getPatchK
  | applyK
  | validateK
  | testK
  | commitK
  | mergeK
  | revertK
  | tagK
  | logK
  | failLogK
deriving DecidableEq, Repr

/-- Project a `CoderEvent` to its kind. -/
def CoderEvent.kind : CoderEvent → CoderKind
  | CoderEvent.snapshotEv _ => CoderKind.snapshotK
  | CoderEvent.startBranchEv _ => CoderKind.branchK
  | CoderEvent.getPatchEv _ => CoderKind.getPatchK
  | CoderEvent.applyPatchEv _ => CoderKind.applyK
  | CoderEvent.validateDiffEv _ => CoderKind.validateK
  | CoderEvent.runTestsEv => CoderKind.testK
  | CoderEvent.commitEv _ => CoderKind.commitK
  | CoderEvent.mergeMainEv => CoderKind.mergeK
  | CoderEvent.revertFileEv _ => CoderKind.revertK
  | CoderEvent.tagFailureEv _ => CoderKind.tagK
  | CoderEvent.logActionEv _ _ => CoderKind.logK
  | CoderEvent.writeFailLogEv _ => CoderKind.failLogK

/-- Boolean subsequence test: the first list occurs in the second in
order, not necessarily contiguously. -/
def seqWithin {α : Type} [BEq α] : List α → List α → Bool
  | [], _ => true
  | _ :: _, [] => false
  | a :: as, b :: bs => if a == b then seqWithin as bs else seqWithin (a :: as) bs

/-- The target-file choice of `analyze_and_fix` (autonomous_coder.py
lines 309-314): the analysis target, unless it is empty or its
confidence is below 0.5, in which case the first context file. -/
def chooseTarget (analysis : AnalysisResult) (firstKey : String) : String :=
  if analysis.target_file == "" || analysis.confidence < (1/2 : Rat) then firstKey
  else analysis.target_file

/-- `analyze_and_fix` (autonomous_coder.py lines 278-421).  Oracle
parameters stand for the effectful collaborators: `contextFiles` is the
`find_relevant_files` result, `analysis` the `analyze_error` result,
`patchResult` the `generate_code_patch` result, `explanation` the
`explain_change` result, `applyRes` the `apply_patch` outcome and
`testRes` the `run_tests` outcome `(passed, output)`.  Returns the
`FixResult` and the ordered effect trace. -/
def analyze_and_fix (issue : String) (contextFiles : List (String × String))
    (analysis : AnalysisResult) (patchResult : PatchGenResult) (explanation : String)
    (applyRes : Bool × String) (testRes : Bool × String) : FixResult × List CoderEvent :=
  match contextFiles with
  | [] => (⟨false, "No relevant files found", false, false, [], false, "", ""⟩, [])
  | (f0, _) :: _ =>
      let target := chooseTarget analysis f0
      let ev0 := [CoderEvent.getPatchEv target]
      if !patchResult.success then
        (⟨false, patchResult.explanation.getD "Patch generation failed",
          false, false, [], false, "", patchResult.model⟩, ev0)
      else
        let ev1 := ev0 ++ [CoderEvent.snapshotEv "autofix", CoderEvent.applyPatchEv target]
        if !applyRes.1 then
          (⟨false, "Patch application failed: " ++ applyRes.2,
            false, false, [], false, explanation, patchResult.model⟩, ev1)
        else
          let ev2 := ev1 ++ [CoderEvent.runTestsEv]
          if testRes.1 then
            (⟨true, "Fix applied successfully", true, true, [target], false,
              explanation, patchResult.model⟩,
             ev2 ++ [CoderEvent.logActionEv "autofix" explanation])
          else
            (⟨false, "Tests failed after patch, rolled back", true, false, [target], true,
              explanation, patchResult.model⟩,
             ev2 ++ [CoderEvent.revertFileEv target,
                     CoderEvent.logActionEv "autofix_rollback"
                       ("Rollback: " ++ strTake testRes.2 500),
                     CoderEvent.writeFailLogEv issue])

end AutoCoder

namespace RepairEngine

/-- `RepairResult` from `core/repair_engine.py` (`PARTIAL` is spelled
`partialR` because `partial` is a Lean keyword). -/
inductive RepairResult
  | success
  | partialR
  | failed
  | skipped
deriving DecidableEq, Repr

/-- `RepairAction` from `core/repair_engine.py` (duration in abstract
clock units). -/
structure RepairAction where
  name : String
  result : RepairResult
  message : String
  duration : Int := 0
  snapshot_path : Option String := none
deriving DecidableEq, Repr

/-- `AUDIO_REPAIR_MAX_ATTEMPTS` (repair_engine.py line 30). -/
def AUDIO_REPAIR_MAX_ATTEMPTS : Nat := 3

/-- `AUDIO_REPAIR_COOLDOWN_MINUTES` (repair_engine.py line 31). -/
def AUDIO_REPAIR_COOLDOWN_MINUTES : Int := 10

/-- The circuit breaker and dispatch of `RepairEngine.restart_audio_device`
(repair_engine.py lines 230-296).  `attempts` is the module-level
`_audio_repair_attempts` window, `bodyOutcome` the oracle outcome of the
device-probing body (it touches real audio hardware), `snapshotDir` the
snapshot path.  Returns the action result, the updated attempt window,
and whether the repair body actually ran. -/
def restart_audio_device (attempts : List Int) (now : Int)
    (bodyOutcome : RepairResult × String) (snapshotDir : String) :
    RepairAction × List Int × Bool :=
  let cutoff := now - AUDIO_REPAIR_COOLDOWN_MINUTES * 60
  let pruned := attempts.filter (fun t => cutoff < t)
  if AUDIO_REPAIR_MAX_ATTEMPTS ≤ pruned.length then
    ({ name := "restart_audio_device", result := RepairResult.skipped,
       message := "Circuit breaker: too many attempts", snapshot_path := none },
     pruned, false)
  else
    ({ name := "restart_audio_device", result := bodyOutcome.1, message := bodyOutcome.2,
       snapshot_path := some snapshotDir },
     pruned ++ [now], true)

/-- The context f-string built by `escalate_to_autonomous_coder`
(repair_engine.py lines 494-499). -/
def buildEscalationContext (issue : String) (failedActions : List String) : String :=
  "\nIssue: " ++ issue ++ "\nFailed repair actions: " ++ joinComma failedActions ++
    "\nThe standard repair actions did not resolve this issue. \nPlease analyze the code and suggest a fix.\n"

/-- `RepairEngine.escalate_to_autonomous_coder` (repair_engine.py lines
481-525).  `coder` is the `analyze_and_fix` collaborator applied to the
built context; `snapshotDir` the `create_snapshot("autonomous_fix")`
path. -/
def escalate_to_autonomous_coder (issue : String) (failedActions : List String)
    (coder : String → AutoCoder.FixResult) (snapshotDir : String) : RepairAction :=
  let ctx := buildEscalationContext issue failedActions
  let result := coder ctx
  if result.success then
    { name := "autonomous_fix", result := RepairResult.success,
      message := strTake result.explanation 200, snapshot_path := some snapshotDir }
  else
    { name := "autonomous_fix", result := RepairResult.failed,
      message := result.message, snapshot_path := some snapshotDir }

/-- `execute_plan_with_autonomy` (repair_engine.py lines 529-543).
`results` is the `execute_plan` outcome for this run (each action's
result is environment-dependent). -/
def execute_plan_with_autonomy (results : List RepairAction) (issue : String)
    (coder : String → AutoCoder.FixResult) (snapshotDir : String) : List RepairAction :=
  let failures := results.filter (fun r => r.result == RepairResult.failed)
  if 2 ≤ failures.length then
    results ++ [escalate_to_autonomous_coder issue (failures.map (fun r => r.name)) coder snapshotDir]
  else results

end RepairEngine

namespace GitHelper

/-- `MAX_COMMITS_PER_HOUR` (git_helper.py line 26). -/
def MAX_COMMITS_PER_HOUR : Nat := 3

/-- `MAX_LINES_PER_COMMIT` (git_helper.py line 27). -/
def MAX_LINES_PER_COMMIT : Nat := 500

/-- `(now - t).seconds` for datetimes modelled as epoch seconds: the
`seconds` field of a Python timedelta is the difference reduced modulo
86400 (one day), always in `[0, 86400)` — not the total seconds. -/
def timedeltaSeconds (now t : Int) : Int := (now - t).emod 86400

/-- Python `p.isdigit()` for ASCII tokens. -/
def isDigits (p : String) : Bool := p ≠ "" && p.toList.all Char.isDigit

/-- Python `line.split()` for space-separated git output: split on runs
of spaces, dropping empty tokens. -/
def splitWs (line : String) : List String := (splitOnChar ' ' line).filter (fun p => p ≠ "")

/-- `int(p)` for an all-digit token. -/
def strToNat (p : String) : Nat := p.toList.foldl (fun a c => a * 10 + (c.toNat - 48)) 0

/-- The changed-line count parse of `commit_patch` (git_helper.py lines
167-174): over each `git diff --stat` line containing "insertion" or
"deletion", sum every whitespace-separated all-digit token. -/
def parseLinesChanged (diffStat : String) : Nat :=
  ((splitOnChar '\n' diffStat).filter
      (fun l => containsSub l "insertion" || containsSub l "deletion")).foldl
    (fun acc l => acc + ((splitWs l).filter isDigits).foldl (fun a p => a + strToNat p) 0) 0

/-- Effect events of `commit_patch`. -/
inductive GitEvent
  | stageFile (f : String)
  | stageAll
  | commitCreated (msg : String)
deriving DecidableEq, Repr

/-- Oracles for the subprocess calls inside `commit_patch`: the
`git diff --stat` output, the `git status --porcelain` output observed
after staging, whether the `git commit` subprocess succeeds, and the HEAD
revisions reported by `get_current_commit` before and after a commit. -/
structure CommitEnv where
  diffStat : String
  statusPorcelain : String
  commitOk : Bool
  headBefore : String
  headAfter : String
deriving Repr

/-- `commit_patch` (git_helper.py lines 147-199).  `timestamps` is the
module-level `_commit_timestamps` window.  Returns the `(hash, ok)` pair,
the updated timestamp window, and the staging/commit events performed. -/
def commit_patch (timestamps : List Int) (now : Int) (msg : String)
    (files : Option (List String)) (env : CommitEnv) :
    (String × Bool) × List Int × List GitEvent :=
  let pruned := timestamps.filter (fun t => timedeltaSeconds now t < 3600)
  if MAX_COMMITS_PER_HOUR ≤ pruned.length then
    (("", false), pruned, [])
  else if MAX_LINES_PER_COMMIT < parseLinesChanged env.diffStat then
    (("", false), pruned, [])
  else
    let stageEvents :=
      match files with
      | some (f :: fs) => (f :: fs).map GitEvent.stageFile
      | _ => [GitEvent.stageAll]
    if env.statusPorcelain == "" then
      ((env.headBefore, true), pruned, stageEvents)
    else if env.commitOk then
      ((env.headAfter, true), pruned ++ [now], stageEvents ++ [GitEvent.commitCreated msg])
    else
      (("", false), pruned, stageEvents)

/-- `Path(f).name`: the final path component (inputs are normalised
POSIX-style relative paths, for which `str(Path(f)) = f` as well). -/
def pathName (f : String) : String := (((splitOnChar '/' f)).getLast?).getD f

/-- The reason strings of `validate_diff_before_commit`, modelled
structurally with their interpolated data. -/
inductive DiffReason
  | noChanges
  | unexpectedFiles (files : List String)
  | tooLarge (lines : Nat)
  | valid (fileCount : Nat) (lines : Nat)
deriving DecidableEq, Repr

/-- `validate_diff_before_commit` (git_helper.py lines 378-424).
`changed` is the `get_changed_files()` subprocess oracle and `totalLines`
the `get_diff_stats()["total_lines"]` oracle.  A changed file is accepted
when its basename is among the expected basenames, or its path equals an
expected path, or it ends with an expected path. -/
def validate_diff_before_commit (expected : List String) (changed : List String)
    (totalLines : Nat) : Bool × DiffReason :=
  if changed.isEmpty then (false, DiffReason.noChanges)
  else
    let expectedNames := expected.map pathName
    let unexpected := changed.filter (fun f =>
      (!(expectedNames.contains (pathName f))) && (!(expected.contains f)) &&
        (!(expected.any (fun e => endsWithSub f e))))
    if !unexpected.isEmpty then (false, DiffReason.unexpectedFiles unexpected)
    else if MAX_LINES_PER_COMMIT < totalLines then (false, DiffReason.tooLarge totalLines)
    else (true, DiffReason.valid changed.length totalLines)

end GitHelper

namespace SelfUpdate

/-- `UpdateResult` from `core/self_update.py`. -/
structure UpdateResult where
  success : Bool
  message : String
  tests_passed : Bool
  changes : List String
  backup_path : Option String := none
  deferred : Bool := false
  requires_approval : Bool := false
  commit_sha : Option String := none
deriving DecidableEq, Repr

/-- The module-level configuration read from the environment at import
time: `SELF_UPDATE_ENABLED` (default true), the
`is_in_maintenance_window()` check for this run, and
`SELF_UPDATE_AUTO_ROLLBACK` (default true). -/
structure UpdateConfig where
  enabled : Bool
  inWindow : Bool
  autoRollback : Bool
deriving Repr

/-- Effect events of `run_full_autonomy_flow`. -/
inductive UpdateEvent
  | notifyEv (etype summary details : String)
  | backupEv (path : String)
  | gitResetHardEv (target : String)
  | restoreBackupEv (path : String)
deriving DecidableEq, Repr

/-- Oracles for the effectful steps of the flow: the
`check_for_updates()` triple, the `create_backup()` path, the
`apply_update()` merge outcome and the `run_smoke_tests()` outcome. -/
structure UpdateEnv where
  hasUpdates : Bool
  changed : List String
  remoteSha : String
  backupPath : String
  mergeOk : Bool
  mergeMsg : String
  testsOk : Bool
  testOutput : String
deriving Repr

/-- `SelfUpdater.run_full_autonomy_flow` (self_update.py lines 395-470).
Returns the `UpdateResult` and the ordered effect trace (notifications,
backup creation, and the rollback steps `git reset --hard HEAD~1` plus
`rollback(backup)`). -/
def run_full_autonomy_flow (cfg : UpdateConfig) (force : Bool) (env : UpdateEnv) :
    UpdateResult × List UpdateEvent :=
  if !cfg.enabled then
    ({ success := false, message := "Self-update disabled", tests_passed := false,
       changes := [] }, [])
  else if !force && !cfg.inWindow then
    ({ success := true, message := "Deferred - outside window", tests_passed := false,
       changes := [], deferred := true }, [])
  else
    let ev0 := [UpdateEvent.notifyEv "update_check" "Checking for updates" ""]
    if !env.hasUpdates then
      ({ success := true, message := "Already up to date", tests_passed := true,
         changes := [] }, ev0)
    else
      let ev1 := ev0 ++ [UpdateEvent.backupEv env.backupPath]
      if !env.mergeOk then
        ({ success := false, message := env.mergeMsg, tests_passed := false,
           changes := env.changed, backup_path := some env.backupPath,
           commit_sha := some env.remoteSha },
         ev1 ++ [UpdateEvent.notifyEv "update_failed" "Merge failed" env.mergeMsg])
      else if !env.testsOk then
        let rbEvents :=
          if cfg.autoRollback then
            [UpdateEvent.gitResetHardEv "HEAD~1", UpdateEvent.restoreBackupEv env.backupPath]
          else []
        ({ success := false, message := "Tests failed, rolled back", tests_passed := false,
           changes := env.changed, backup_path := some env.backupPath,
           commit_sha := some env.remoteSha },
         ev1 ++ rbEvents ++
           [UpdateEvent.notifyEv "update_failed" "Tests failed, rolled back"
             (strTake env.testOutput 500)])
      else
        ({ success := true, message := "Update successful", tests_passed := true,
           changes := env.changed, backup_path := some env.backupPath,
           commit_sha := some env.remoteSha },
         ev1 ++ [UpdateEvent.notifyEv "update_applied"
           ("Update applied: " ++ toString env.changed.length ++ " files")
           ("Commit: " ++ env.remoteSha)])

end SelfUpdate

namespace Approval

/-- `ApprovalRequest` from `core/approval.py`. -/
structure ApprovalRequest where
  action : String
  reason : String
  timestamp : Int
  expires : Int
  requires_pin : Bool := false
deriving DecidableEq, Repr

/-- `ApprovalManager.CONFIRM_PHRASES`. -/
def CONFIRM_PHRASES : List String :=
  ["yes", "y", "yeah", "yep", "yup",
   "approve", "approved", "confirm", "confirmed",
   "do it", "go ahead", "proceed", "ok", "okay",
   "sure", "affirmative", "allow", "accept"]

/-- `ApprovalManager.DENY_PHRASES`. -/
def DENY_PHRASES : List String :=
  ["no", "n", "nope", "nah",
   "cancel", "abort", "stop", "deny", "denied",
   "don" ++ aposChar ++ "t", "dont", "nevermind", "reject"]

/-- Which user callback `check_response` invokes. -/
inductive CallbackChoice
  | noCall
  | confirmCall
  | denyCall
deriving DecidableEq, Repr

/-- The observable outcome of one `check_response` call: its returned
`(handled, result)` pair, the callback it invokes, and the pending
request left afterwards. -/
structure CheckOutcome where
  handled : Bool
  result : String
  callback : CallbackChoice
  pendingAfter : Option ApprovalRequest
deriving DecidableEq, Repr

/-- Python `text.replace(" ", "")`. -/
def removeSpaces (s : String) : String := ⟨s.toList.filter (fun c => c ≠ ' ')⟩

/-- The confirm-then-deny classification at the end of `check_response`
(approval.py lines 159-208): the confirm-phrase list is tested first,
each by case-insensitive substring containment. -/
def classifyResponse (req : ApprovalRequest) (textLower : String) : CheckOutcome :=
  if CONFIRM_PHRASES.any (fun p => containsSub textLower p) then
    ⟨true, "approved", CallbackChoice.confirmCall, none⟩
  else if DENY_PHRASES.any (fun p => containsSub textLower p) then
    ⟨true, "denied", CallbackChoice.denyCall, none⟩
  else ⟨false, "", CallbackChoice.noCall, some req⟩

/-- `ApprovalManager.check_response` (approval.py lines 136-208).  `pin`
is the module-level `APPROVAL_PIN`. -/
def check_response (pin : String) (pending : Option ApprovalRequest) (text : String) :
    CheckOutcome :=
  match pending with
  | none => ⟨false, "", CallbackChoice.noCall, none⟩
  | some req =>
      let textLower := strTrim (strLower text)
      if req.requires_pin ∧ pin ≠ "" then
        if containsSub (removeSpaces textLower) pin then classifyResponse req textLower
        else if CONFIRM_PHRASES.any (fun p => containsSub textLower p) then
          ⟨true, "need_pin", CallbackChoice.noCall, some req⟩
        else ⟨false, "", CallbackChoice.noCall, some req⟩
      else classifyResponse req textLower

end Approval
/-- The escalated-fix operation sequence asserted by the spec (the §4.4
escalation sequence: snapshot → isolated branch → candidate patch → apply
→ validate diff → tests → commit+merge on pass / revert+tag on fail),
as operation kinds in the claimed order.  This definition follows the
spec text and is compared against the trace of `analyze_and_fix`. -/
def specEscalationKinds (passed : Bool) : List AutoCoder.CoderKind :=
  [AutoCoder.CoderKind.snapshotK, AutoCoder.CoderKind.branchK, AutoCoder.CoderKind.getPatchK,
   AutoCoder.CoderKind.applyK, AutoCoder.CoderKind.validateK, AutoCoder.CoderKind.testK] ++
    (if passed then [AutoCoder.CoderKind.commitK, AutoCoder.CoderKind.mergeK]
     else [AutoCoder.CoderKind.revertK, AutoCoder.CoderKind.tagK])

/-- Claim C1 as stated, at one run of `analyze_and_fix`: the spec's
escalation steps occur, in the spec's order, within the run's effect
trace. -/
def c1ClaimHolds (trace : List AutoCoder.CoderEvent) (passed : Bool) : Prop :=
  AutoCoder.seqWithin (specEscalationKinds passed)
    (trace.map AutoCoder.CoderEvent.kind) = true

/-- Claim C2 as stated, at one run of `run_full_autonomy_flow`: whenever
the merge succeeds and the test run fails, the trace holds a hard reset,
a backup restore, and an `update_failed` notification carrying the test
output truncated to 500 characters. -/
def c2ClaimHolds (cfg : SelfUpdate.UpdateConfig) (force : Bool)
    (env : SelfUpdate.UpdateEnv) : Prop :=
  cfg.enabled = true → (force = true ∨ cfg.inWindow = true) → env.hasUpdates = true →
    env.mergeOk = true → env.testsOk = false →
      ((SelfUpdate.run_full_autonomy_flow cfg force env).2.contains
          (SelfUpdate.UpdateEvent.gitResetHardEv "HEAD~1") = true ∧
        (SelfUpdate.run_full_autonomy_flow cfg force env).2.contains
          (SelfUpdate.UpdateEvent.restoreBackupEv env.backupPath) = true ∧
        (SelfUpdate.run_full_autonomy_flow cfg force env).2.contains
          (SelfUpdate.UpdateEvent.notifyEv "update_failed" "Tests failed, rolled back"
            (strTake env.testOutput 500)) = true)

/-- Claim C4 as stated, at one call of `commit_patch`: if the rolling
past hour already holds the maximum number of commits, or nothing is
staged, the call returns `("", false)`. -/
def c4ClaimHolds (ts : List Int) (now : Int) (msg : String)
    (files : Option (List String)) (env : GitHelper.CommitEnv) : Prop :=
  (GitHelper.MAX_COMMITS_PER_HOUR ≤
      (ts.filter (fun t => 0 ≤ now - t ∧ now - t < 3600)).length ∨
    env.statusPorcelain = "") →
    (GitHelper.commit_patch ts now msg files env).1 = ("", false)

/-- The matching relation claimed by C5: a changed file is acceptable
when it matches an expected file by exact path or by suffix (the claim
omits the basename match the code also performs). -/
def c5SpecMatch (e f : String) : Bool := f == e || endsWithSub f e

/-- Claim C5 as stated, at one call of `validate_diff_before_commit`. -/
def c5ClaimHolds (expected changed : List String) (totalLines : Nat) : Prop :=
  ((∃ f ∈ changed, ∀ e ∈ expected, c5SpecMatch e f = false) ∨
      GitHelper.MAX_LINES_PER_COMMIT < totalLines) →
    (GitHelper.validate_diff_before_commit expected changed totalLines).1 = false

/-- A pending approval request with no PIN requirement, for C10. -/
def c10req : Approval.ApprovalRequest :=
  { action := "restart_assistant_process", reason := "escalation requested",
    timestamp := 0, expires := 15, requires_pin := false }

/-- The C10 response text: it contains the deny phrase "don't" (and
"dont") together with the confirm phrase "okay" (and its substring
"ok"). -/
def c10text : String := "please don" ++ aposChar ++ "t, okay"

/-- Healthy check results for the six monitored components, as the
`_check_*` methods build them on their healthy paths. -/
def wMic : Watchdog.ComponentHealth :=
  { name := "microphone", status := Watchdog.HealthStatus.healthy, last_check := 0,
    message := "Microphone OK" }

def wAsr : Watchdog.ComponentHealth :=
  { name := "asr", status := Watchdog.HealthStatus.healthy, last_check := 0,
    message := "ASR ready" }

def wTts : Watchdog.ComponentHealth :=
  { name := "tts", status := Watchdog.HealthStatus.healthy, last_check := 0,
    message := "TTS ready" }

def wHotkeys : Watchdog.ComponentHealth :=
  { name := "hotkeys", status := Watchdog.HealthStatus.healthy, last_check := 0,
    message := "Hotkeys registered" }

def wAvatar : Watchdog.ComponentHealth :=
  { name := "avatar", status := Watchdog.HealthStatus.unknown, last_check := 0,
    message := "Avatar not initialized" }

def wPtt : Watchdog.ComponentHealth :=
  { name := "ptt", status := Watchdog.HealthStatus.healthy, last_check := 0,
    message := "PTT ready" }

/-- The report the healthy run above produces. -/
def wReport : Watchdog.DiagnosticReport :=
  { timestamp := 0
    components := [("microphone", wMic), ("asr", wAsr), ("tts", wTts),
                   ("hotkeys", wHotkeys), ("avatar", wAvatar), ("ptt", wPtt)]
    overall_status := Watchdog.HealthStatus.healthy
    issues := []
    recommendations := [] }

section StringLemmas

theorem strToList_append (a b : String) : (a ++ b).toList = a.toList ++ b.toList :=
  String.data_append a b

theorem leadsList_self_append (n t : List Char) : leadsList n (n ++ t) = true := by
  induction n with
  | nil => rfl
  | cons a as ih => simp [leadsList, ih]

theorem leadsList_extend (n : List Char) :
    ∀ h t : List Char, leadsList n h = true → leadsList n (h ++ t) = true := by
  induction n with
  | nil => intro h t _; rfl
  | cons a as ih =>
      intro h t hl
      cases h with
      | nil => simp [leadsList] at hl
      | cons b bs =>
          simp [leadsList] at hl ⊢
          exact ⟨hl.1, ih bs t hl.2⟩

theorem drop_length_append (a : List Char) :
    ∀ (b : List Char) (i : Nat), (a ++ b).drop (a.length + i) = b.drop i := by
  induction a with
  | nil => intro b i; simp
  | cons x xs ih => intro b i; simp [Nat.succ_add, ih b i]

theorem drop_append_of_le (a : List Char) :
    ∀ (b : List Char) (i : Nat), i ≤ a.length → (a ++ b).drop i = a.drop i ++ b := by
  induction a with
  | nil =>
      intro b i h
      have hz : i = 0 := Nat.le_zero.mp h
      subst hz; simp
  | cons x xs ih =>
      intro b i h
      cases i with
      | zero => simp
      | succ j => simpa using ih b j (Nat.le_of_succ_le_succ h)

theorem containsSub_self (s : String) : containsSub s s = true := by
  simp only [containsSub, List.any_eq_true]
  refine ⟨0, ?_, ?_⟩
  · simp
  · simpa using leadsList_self_append s.toList []

theorem containsSub_append_right (s n q : String) (h : containsSub s n = true) :
    containsSub (s ++ q) n = true := by
  simp only [containsSub, List.any_eq_true, List.mem_range] at h ⊢
  obtain ⟨i, hi, hl⟩ := h
  rw [strToList_append]
  refine ⟨i, ?_, ?_⟩
  · rw [List.length_append]; omega
  · have hile : i ≤ s.toList.length := by omega
    rw [drop_append_of_le _ _ _ hile]
    exact leadsList_extend _ _ _ hl

theorem containsSub_append_left (p s n : String) (h : containsSub s n = true) :
    containsSub (p ++ s) n = true := by
  simp only [containsSub, List.any_eq_true, List.mem_range] at h ⊢
  obtain ⟨i, hi, hl⟩ := h
  rw [strToList_append]
  refine ⟨p.toList.length + i, ?_, ?_⟩
  · rw [List.length_append]; omega
  · rw [drop_length_append]; exact hl

theorem containsSub_joinComma (a : String) :
    ∀ l : List String, a ∈ l → containsSub (joinComma l) a = true := by
  intro l
  induction l with
  | nil => intro h; cases h
  | cons b rest ih =>
      intro hmem
      cases rest with
      | nil =>
          have hab : a = b := by
            cases hmem with
            | head => rfl
            | tail _ h => cases h
          subst hab
          simpa [joinComma] using containsSub_self a
      | cons c cs =>
          cases hmem with
          | head =>
              show containsSub (a ++ ", " ++ joinComma (c :: cs)) a = true
              exact containsSub_append_right _ _ _
                (containsSub_append_right _ _ _ (containsSub_self a))
          | tail _ h =>
              show containsSub (b ++ ", " ++ joinComma (c :: cs)) a = true
              exact containsSub_append_left _ _ _ (ih h)

end StringLemmas

/-- C10: with a pending approval request and no PIN required,
`check_response` tests the confirm-phrase list before the deny-phrase
list using case-insensitive substring containment; a response text
containing the deny phrase "don't" together with the confirm phrase
"okay" is therefore resolved as approved, and the confirm callback — not
the deny callback — is invoked. -/
theorem C10_confirm_checked_before_deny :
    Approval.DENY_PHRASES.any (fun p => containsSub (strTrim (strLower c10text)) p) = true ∧
    Approval.CONFIRM_PHRASES.any (fun p => containsSub (strTrim (strLower c10text)) p) = true ∧
    Approval.check_response "" (some c10req) c10text =
      { handled := true, result := "approved",
        callback := Approval.CallbackChoice.confirmCall, pendingAfter := none } := by
  refine ⟨by decide, by decide, by decide⟩

/-- C7: with `max_attempts = 3` and `cooldown = 10` minutes, a call to
the circuit-breaker-guarded audio repair made while three prior attempts
lie within the last 10 minutes is skipped with the circuit-breaker
message and runs no repair body (the attempt window is left as is);
once 10 minutes have elapsed since all prior attempts, the next call runs
the repair body again. -/
theorem C7_circuit_breaker (attempts : List Int) (now now2 : Int)
    (body : RepairEngine.RepairResult × String) (snap : String) :
    (attempts.length = 3 → (∀ t ∈ attempts, now - 600 < t) →
      RepairEngine.restart_audio_device attempts now body snap =
        ({ name := "restart_audio_device", result := RepairEngine.RepairResult.skipped,
           message := "Circuit breaker: too many attempts", duration := 0,
           snapshot_path := none }, attempts, false)) ∧
    ((∀ t ∈ attempts, t ≤ now2 - 600) →
      RepairEngine.restart_audio_device attempts now2 body snap =
        ({ name := "restart_audio_device", result := body.1, message := body.2,
           duration := 0, snapshot_path := some snap }, [now2], true)) := by
  constructor
  · intro hlen hwin
    have h1 : attempts.filter
        (fun t => decide (now - RepairEngine.AUDIO_REPAIR_COOLDOWN_MINUTES * 60 < t)) = attempts := by
      rw [List.filter_eq_self]
      intro a ha
      have := hwin a ha
      simp only [RepairEngine.AUDIO_REPAIR_COOLDOWN_MINUTES, decide_eq_true_eq]
      omega
    simp only [RepairEngine.restart_audio_device, RepairEngine.AUDIO_REPAIR_MAX_ATTEMPTS, h1,
      hlen]
    rfl
  · intro hold
    have h2 : attempts.filter
        (fun t => decide (now2 - RepairEngine.AUDIO_REPAIR_COOLDOWN_MINUTES * 60 < t)) = [] := by
      rw [List.filter_eq_nil_iff]
      intro a ha
      have := hold a ha
      simp only [RepairEngine.AUDIO_REPAIR_COOLDOWN_MINUTES, decide_eq_true_eq]
      omega
    simp only [RepairEngine.restart_audio_device, RepairEngine.AUDIO_REPAIR_MAX_ATTEMPTS, h2]
    rfl

/-- Witness for C7: three attempts at times 500, 700, 900; a call at time
1000 (all within 600 s) is skipped, a call at time 1600 (all at least
600 s old) runs the body. -/
theorem C7_witness :
    RepairEngine.restart_audio_device [500, 700, 900] 1000
        (RepairEngine.RepairResult.success, "Using device 1") "snapdir" =
      ({ name := "restart_audio_device", result := RepairEngine.RepairResult.skipped,
         message := "Circuit breaker: too many attempts", duration := 0,
         snapshot_path := none }, [500, 700, 900], false) ∧
    RepairEngine.restart_audio_device [500, 700, 900] 1600
        (RepairEngine.RepairResult.success, "Using device 1") "snapdir" =
      ({ name := "restart_audio_device", result := RepairEngine.RepairResult.success,
         message := "Using device 1", duration := 0,
         snapshot_path := some "snapdir" }, [1600], true) :=
  ⟨(C7_circuit_breaker [500, 700, 900] 1000 1600
      (RepairEngine.RepairResult.success, "Using device 1") "snapdir").1
        (by decide) (by decide),
   (C7_circuit_breaker [500, 700, 900] 1000 1600
      (RepairEngine.RepairResult.success, "Using device 1") "snapdir").2 (by decide)⟩

/-- C3: a plan run whose result list holds at least two `failed` actions
gets exactly one extra `autonomous_fix` `RepairAction` appended by
`execute_plan_with_autonomy`, and every failed action's name occurs in
the context handed to the coder; a run with fewer than two failed
actions is returned unchanged. -/
theorem C3_autonomous_fix_appended (results : List RepairEngine.RepairAction)
    (issue : String) (coder : String → AutoCoder.FixResult) (snapshotDir : String) :
    (2 ≤ (results.filter (fun r => r.result == RepairEngine.RepairResult.failed)).length →
      RepairEngine.execute_plan_with_autonomy results issue coder snapshotDir =
        results ++ [RepairEngine.escalate_to_autonomous_coder issue
          ((results.filter (fun r => r.result == RepairEngine.RepairResult.failed)).map
            (fun r => r.name)) coder snapshotDir] ∧
      (RepairEngine.escalate_to_autonomous_coder issue
        ((results.filter (fun r => r.result == RepairEngine.RepairResult.failed)).map
          (fun r => r.name)) coder snapshotDir).name = "autonomous_fix" ∧
      ∀ r ∈ results, r.result = RepairEngine.RepairResult.failed →
        containsSub (RepairEngine.buildEscalationContext issue
          ((results.filter (fun r => r.result == RepairEngine.RepairResult.failed)).map
            (fun r => r.name))) r.name = true) ∧
    ((results.filter (fun r => r.result == RepairEngine.RepairResult.failed)).length < 2 →
      RepairEngine.execute_plan_with_autonomy results issue coder snapshotDir = results) := by
  constructor
  · intro h
    refine ⟨?_, ?_, ?_⟩
    · unfold RepairEngine.execute_plan_with_autonomy
      rw [if_pos h]
    · unfold RepairEngine.escalate_to_autonomous_coder
      dsimp only
      split <;> rfl
    · intro r hr hfail
      have hrf : r ∈ results.filter (fun r => r.result == RepairEngine.RepairResult.failed) :=
        List.mem_filter.mpr ⟨hr, by simp [hfail]⟩
      have hname : r.name ∈
          (results.filter (fun r => r.result == RepairEngine.RepairResult.failed)).map
            (fun r => r.name) := List.mem_map_of_mem _ hrf
      have hjc := containsSub_joinComma r.name _ hname
      unfold RepairEngine.buildEscalationContext
      exact containsSub_append_right _ _ _ (containsSub_append_left _ _ _ hjc)
  · intro h
    unfold RepairEngine.execute_plan_with_autonomy
    rw [if_neg (by omega)]

section PlannerLemmas

open Planner

theorem insertByPriority_perm (p : RepairPlanItem) (l : List RepairPlanItem) :
    (insertByPriority p l).Perm (p :: l) := by
  induction l with
  | nil => exact List.Perm.refl _
  | cons q qs ih =>
      unfold insertByPriority
      split
      · exact (ih.cons q).trans (List.Perm.swap p q qs)
      · exact List.Perm.refl _

theorem sortByPriority_perm (l : List RepairPlanItem) : (sortByPriority l).Perm l := by
  induction l with
  | nil => exact List.Perm.refl _
  | cons p ps ih =>
      exact (insertByPriority_perm p (sortByPriority ps)).trans (ih.cons p)

theorem capAuto_map_action (c : Nat) (l : List RepairPlanItem) :
    (capAuto c l).map (fun p => p.action) = l.map (fun p => p.action) := by
  induction l generalizing c with
  | nil => rfl
  | cons p ps ih =>
      unfold capAuto
      by_cases hp : p.auto
      · by_cases hc : c + 1 > MAX_AUTO_ACTIONS
        · simp [hp, hc, ih]
        · simp [hp, hc, ih]
      · simp [hp, ih]

theorem capAuto_filter_auto_length (l : List RepairPlanItem) :
    ∀ c : Nat, ((capAuto c l).filter (fun p => p.auto)).length ≤ MAX_AUTO_ACTIONS - c := by
  induction l with
  | nil => intro c; simp [capAuto]
  | cons p ps ih =>
      intro c
      unfold capAuto
      by_cases hp : p.auto
      · by_cases hc : c + 1 > MAX_AUTO_ACTIONS
        · rw [if_pos hp, if_pos hc, List.filter_cons_of_neg (by simp)]
          have := ih (c + 1)
          omega
        · rw [if_pos hp, if_neg hc, List.filter_cons_of_pos (by simpa using hp)]
          have := ih (c + 1)
          simp only [List.length_cons]
          omega
      · rw [if_neg hp, List.filter_cons_of_neg (by simpa using hp)]
        exact ih c

theorem sortCapPipeline_spec (items : List RepairPlanItem) :
    (((if ((sortByPriority items).filter (fun p => p.auto)).length > MAX_AUTO_ACTIONS
        then capAuto 0 (sortByPriority items)
        else sortByPriority items)).filter (fun p => p.auto)).length ≤ MAX_AUTO_ACTIONS ∧
    ((if ((sortByPriority items).filter (fun p => p.auto)).length > MAX_AUTO_ACTIONS
        then capAuto 0 (sortByPriority items)
        else sortByPriority items).map (fun p => p.action)).Perm
      (items.map (fun p => p.action)) := by
  by_cases hcap :
      ((sortByPriority items).filter (fun p => p.auto)).length > MAX_AUTO_ACTIONS
  · rw [if_pos hcap]
    constructor
    · simpa using capAuto_filter_auto_length (sortByPriority items) 0
    · rw [capAuto_map_action]
      exact (sortByPriority_perm items).map (fun p => p.action)
  · rw [if_neg hcap]
    exact ⟨by omega, (sortByPriority_perm items).map (fun p => p.action)⟩

end PlannerLemmas

/-- C8: for every diagnostic report, the plan built by `create_plan`
holds at most `MAX_AUTO_ACTIONS` (= 5) items with `auto = true`, while
still holding one item per recommendation — excess items are kept
(downgraded to approval-required), not dropped: the plan's action list
is a permutation of the report's recommendation list. -/
theorem C8_auto_cap (report : Watchdog.DiagnosticReport) :
    ((Planner.create_plan report).filter (fun p => p.auto)).length ≤
      Planner.MAX_AUTO_ACTIONS ∧
    ((Planner.create_plan report).map (fun p => p.action)).Perm
      report.recommendations := by
  have h := sortCapPipeline_spec (report.recommendations.map (fun rec =>
    ({ action := rec, reason := Planner.reasonFor rec report.issues,
       auto := Planner.AUTO_SAFE_ACTIONS.contains rec,
       priority := Planner.priorityOf rec } : Planner.RepairPlanItem)))
  have hform : Planner.create_plan report =
      (if ((Planner.sortByPriority (report.recommendations.map (fun rec =>
            ({ action := rec, reason := Planner.reasonFor rec report.issues,
               auto := Planner.AUTO_SAFE_ACTIONS.contains rec,
               priority := Planner.priorityOf rec } : Planner.RepairPlanItem)))).filter
          (fun p => p.auto)).length > Planner.MAX_AUTO_ACTIONS
       then Planner.capAuto 0 (Planner.sortByPriority (report.recommendations.map (fun rec =>
            ({ action := rec, reason := Planner.reasonFor rec report.issues,
               auto := Planner.AUTO_SAFE_ACTIONS.contains rec,
               priority := Planner.priorityOf rec } : Planner.RepairPlanItem))))
       else Planner.sortByPriority (report.recommendations.map (fun rec =>
            ({ action := rec, reason := Planner.reasonFor rec report.issues,
               auto := Planner.AUTO_SAFE_ACTIONS.contains rec,
               priority := Planner.priorityOf rec } : Planner.RepairPlanItem)))) := rfl
  rw [hform]
  refine ⟨h.1, h.2.trans ?_⟩
  rw [List.map_map]
  have : ((fun p : Planner.RepairPlanItem => p.action) ∘ (fun rec =>
      ({ action := rec, reason := Planner.reasonFor rec report.issues,
         auto := Planner.AUTO_SAFE_ACTIONS.contains rec,
         priority := Planner.priorityOf rec } : Planner.RepairPlanItem))) = id := rfl
  rw [this, List.map_id]

section WatchdogLemmas

open Watchdog

theorem gatherChecks_six (a b c d e f : Except String ComponentHealth)
    (L : List ComponentHealth) (h : gatherChecks [a, b, c, d, e, f] = Except.ok L) :
    ∃ a0 b0 c0 d0 e0 f0, a = Except.ok a0 ∧ b = Except.ok b0 ∧ c = Except.ok c0 ∧
      d = Except.ok d0 ∧ e = Except.ok e0 ∧ f = Except.ok f0 ∧
      L = [a0, b0, c0, d0, e0, f0] := by
  cases a with
  | error ea => simp [gatherChecks, Except.map] at h
  | ok a0 =>
      cases b with
      | error eb => simp [gatherChecks, Except.map] at h
      | ok b0 =>
          cases c with
          | error ec => simp [gatherChecks, Except.map] at h
          | ok c0 =>
              cases d with
              | error ed => simp [gatherChecks, Except.map] at h
              | ok d0 =>
                  cases e with
                  | error ee => simp [gatherChecks, Except.map] at h
                  | ok e0 =>
                      cases f with
                      | error ef => simp [gatherChecks, Except.map] at h
                      | ok f0 =>
                          refine ⟨a0, b0, c0, d0, e0, f0, rfl, rfl, rfl, rfl, rfl, rfl, ?_⟩
                          simp [gatherChecks, Except.map] at h
                          exact h.symm

theorem dictInsert_of_not_mem (k : String) (v : ComponentHealth)
    (d : List (String × ComponentHealth)) (h : ∀ p ∈ d, p.1 ≠ k) :
    dictInsert k v d = d ++ [(k, v)] := by
  induction d with
  | nil => rfl
  | cons q rest ih =>
      obtain ⟨k0, v0⟩ := q
      have hk0 : k0 ≠ k := h (k0, v0) (List.mem_cons_self _ _)
      unfold dictInsert
      rw [if_neg (by simpa using hk0)]
      rw [ih (fun p hp => h p (List.mem_cons_of_mem _ hp))]
      rfl

theorem foldl_dictInsert_of_nodup (checks : List ComponentHealth) :
    ∀ acc : List (String × ComponentHealth),
      (∀ c ∈ checks, ∀ p ∈ acc, p.1 ≠ c.name) →
      ((checks.map (fun c => c.name)).Nodup) →
      checks.foldl (fun d c => dictInsert c.name c d) acc =
        acc ++ checks.map (fun c => (c.name, c)) := by
  induction checks with
  | nil => intro acc _ _; simp
  | cons c cs ih =>
      intro acc hdisj hnd
      have hins : dictInsert c.name c acc = acc ++ [(c.name, c)] :=
        dictInsert_of_not_mem _ _ _ (hdisj c (List.mem_cons_self _ _))
      have hnd2 := hnd
      rw [List.map_cons] at hnd2
      have hpair := List.nodup_cons.mp hnd2
      have hnd' := hpair.2
      have hhead := hpair.1
      have hdisj' : ∀ c' ∈ cs, ∀ p ∈ acc ++ [(c.name, c)], p.1 ≠ c'.name := by
        intro c' hc' p hp
        rcases List.mem_append.mp hp with hpa | hpb
        · exact hdisj c' (List.mem_cons_of_mem _ hc') p hpa
        · have hpc : p = (c.name, c) := by simpa using hpb
          subst hpc
          intro hcontra
          apply hhead
          have hmem : c'.name ∈ cs.map (fun c => c.name) := List.mem_map_of_mem _ hc'
          rw [← hcontra] at hmem
          exact hmem
      calc (c :: cs).foldl (fun d c => dictInsert c.name c d) acc
          = cs.foldl (fun d c => dictInsert c.name c d) (dictInsert c.name c acc) := rfl
        _ = (acc ++ [(c.name, c)]) ++ cs.map (fun c => (c.name, c)) := by
              rw [hins]; exact ih _ hdisj' hnd'
        _ = acc ++ (c :: cs).map (fun c => (c.name, c)) := by simp

theorem dictOfChecks_of_nodup (checks : List ComponentHealth)
    (h : (checks.map (fun c => c.name)).Nodup) :
    dictOfChecks checks = checks.map (fun c => (c.name, c)) := by
  have := foldl_dictInsert_of_nodup checks [] (by intro _ _ _ hp; cases hp) h
  simpa [dictOfChecks] using this

theorem overallOf_failed_iff (ss : List HealthStatus) :
    overallOf ss = HealthStatus.failed ↔ HealthStatus.failed ∈ ss := by
  unfold overallOf
  split_ifs with h1 h2 <;> simp_all

theorem overallOf_degraded_iff (ss : List HealthStatus) :
    overallOf ss = HealthStatus.degraded ↔
      (HealthStatus.failed ∉ ss ∧ HealthStatus.degraded ∈ ss) := by
  unfold overallOf
  split_ifs with h1 h2 <;> simp_all

theorem overallOf_healthy_iff (ss : List HealthStatus) :
    overallOf ss = HealthStatus.healthy ↔
      (HealthStatus.failed ∉ ss ∧ HealthStatus.degraded ∉ ss) := by
  unfold overallOf
  split_ifs with h1 h2 <;> simp_all

end WatchdogLemmas

/-- C9: for every report `run_diagnostics` produces, the overall status
is `failed` iff some component is `failed`; `degraded` iff none is
`failed` and some is `degraded`; and `healthy` in every other case,
including when components are `unknown`.  The six hypotheses record that
each health-check method always reports its fixed component name. -/
theorem C9_overall_status (now : Int)
    (mic asr tts hotkeys avatar ptt : Except String Watchdog.ComponentHealth)
    (report : Watchdog.DiagnosticReport)
    (hmic : ∀ c, mic = Except.ok c → c.name = "microphone")
    (hasr : ∀ c, asr = Except.ok c → c.name = "asr")
    (htts : ∀ c, tts = Except.ok c → c.name = "tts")
    (hhot : ∀ c, hotkeys = Except.ok c → c.name = "hotkeys")
    (hav : ∀ c, avatar = Except.ok c → c.name = "avatar")
    (hptt : ∀ c, ptt = Except.ok c → c.name = "ptt")
    (h : Watchdog.run_diagnostics now mic asr tts hotkeys avatar ptt = Except.ok report) :
    (report.overall_status = Watchdog.HealthStatus.failed ↔
      ∃ p ∈ report.components, p.2.status = Watchdog.HealthStatus.failed) ∧
    (report.overall_status = Watchdog.HealthStatus.degraded ↔
      ((∀ p ∈ report.components, p.2.status ≠ Watchdog.HealthStatus.failed) ∧
        ∃ p ∈ report.components, p.2.status = Watchdog.HealthStatus.degraded)) ∧
    (report.overall_status = Watchdog.HealthStatus.healthy ↔
      (∀ p ∈ report.components, p.2.status ≠ Watchdog.HealthStatus.failed ∧
        p.2.status ≠ Watchdog.HealthStatus.degraded)) := by
  unfold Watchdog.run_diagnostics at h
  cases hg : Watchdog.gatherChecks [mic, asr, tts, hotkeys, avatar, ptt] with
  | error e => rw [hg] at h; cases h
  | ok checks =>
      rw [hg] at h
      obtain ⟨a0, b0, c0, d0, e0, f0, ha, hb, hc, hd, he, hf, hL⟩ :=
        gatherChecks_six _ _ _ _ _ _ _ hg
      have hn1 := hmic a0 ha
      have hn2 := hasr b0 hb
      have hn3 := htts c0 hc
      have hn4 := hhot d0 hd
      have hn5 := hav e0 he
      have hn6 := hptt f0 hf
      subst hL
      have hnodup : (([a0, b0, c0, d0, e0, f0].map (fun c => c.name))).Nodup := by
        simp [hn1, hn2, hn3, hn4, hn5, hn6]
      have hdict := dictOfChecks_of_nodup _ hnodup
      injection h with hinj
      subst hinj
      dsimp only
      rw [hdict]
      have hcomp : ∀ s : Watchdog.HealthStatus,
          (∃ p ∈ ([a0, b0, c0, d0, e0, f0].map (fun c => (c.name, c))), p.2.status = s) ↔
            s ∈ ([a0, b0, c0, d0, e0, f0].map (fun c => c.status)) := by
        intro s
        constructor
        · rintro ⟨p, hp, hps⟩
          rcases List.mem_map.mp hp with ⟨cc, hcmem, rfl⟩
          exact List.mem_map.mpr ⟨cc, hcmem, hps⟩
        · intro hs
          rcases List.mem_map.mp hs with ⟨cc, hcmem, hcs⟩
          exact ⟨(cc.name, cc), List.mem_map_of_mem _ hcmem, hcs⟩
      refine ⟨?_, ?_, ?_⟩
      · rw [overallOf_failed_iff]
        exact (hcomp _).symm
      · rw [overallOf_degraded_iff]
        constructor
        · rintro ⟨hnf, hdg⟩
          refine ⟨?_, (hcomp _).mpr hdg⟩
          intro p hp hps
          exact hnf ((hcomp _).mp ⟨p, hp, hps⟩)
        · rintro ⟨hnf, hdg⟩
          refine ⟨?_, (hcomp _).mp hdg⟩
          intro hmem
          rcases (hcomp _).mpr hmem with ⟨p, hp, hps⟩
          exact hnf p hp hps
      · rw [overallOf_healthy_iff]
        constructor
        · rintro ⟨hnf, hdg⟩ p hp
          constructor
          · intro hps; exact hnf ((hcomp _).mp ⟨p, hp, hps⟩)
          · intro hps; exact hdg ((hcomp _).mp ⟨p, hp, hps⟩)
        · intro hall
          constructor
          · intro hmem
            rcases (hcomp _).mpr hmem with ⟨p, hp, hps⟩
            exact (hall p hp).1 hps
          · intro hmem
            rcases (hcomp _).mpr hmem with ⟨p, hp, hps⟩
            exact (hall p hp).2 hps

/-- Witness for C9: a run with five healthy components and an unknown
avatar aggregates to overall `healthy`. -/
theorem C9_witness : wReport.overall_status = Watchdog.HealthStatus.healthy :=
  (C9_overall_status 0 (Except.ok wMic) (Except.ok wAsr) (Except.ok wTts)
      (Except.ok wHotkeys) (Except.ok wAvatar) (Except.ok wPtt) wReport
      (fun c hc => by cases hc; rfl) (fun c hc => by cases hc; rfl)
      (fun c hc => by cases hc; rfl) (fun c hc => by cases hc; rfl)
      (fun c hc => by cases hc; rfl) (fun c hc => by cases hc; rfl)
      rfl).2.2.mpr (by decide)

/-- Counterexample for C6: with five healthy checks and the asr check
raising an exception, `run_diagnostics` raises instead of producing a
report — no `DiagnosticReport` exists for the cycle, so no component can
appear in it as `unknown` and the remaining checks are not aggregated,
contrary to the claim. -/
theorem C6_counterexample :
    Watchdog.run_diagnostics 0 (Except.ok wMic)
        (Except.error "RuntimeError: cublas64 library missing") (Except.ok wTts)
        (Except.ok wHotkeys) (Except.ok wAvatar) (Except.ok wPtt) =
      Except.error "RuntimeError: cublas64 library missing" ∧
    ¬ ∃ report, Watchdog.run_diagnostics 0 (Except.ok wMic)
        (Except.error "RuntimeError: cublas64 library missing") (Except.ok wTts)
        (Except.ok wHotkeys) (Except.ok wAvatar) (Except.ok wPtt) = Except.ok report := by
  refine ⟨rfl, ?_⟩
  rintro ⟨r, hr⟩
  have heq : Watchdog.run_diagnostics 0 (Except.ok wMic)
      (Except.error "RuntimeError: cublas64 library missing") (Except.ok wTts)
      (Except.ok wHotkeys) (Except.ok wAvatar) (Except.ok wPtt) =
      Except.error "RuntimeError: cublas64 library missing" := rfl
  rw [heq] at hr
  exact Except.noConfusion hr

/-- C6 (amended): an exception inside one health-check (here the asr
check, with the microphone check succeeding before it) propagates out of
`run_diagnostics`: the cycle is aborted, the poll loop catches and logs
the exception, and no report is produced — the component is not reported
`unknown`. -/
theorem C6_check_exception_aborts_cycle (now : Int) (micC : Watchdog.ComponentHealth)
    (e : String) (tts hotkeys avatar ptt : Except String Watchdog.ComponentHealth) :
    Watchdog.run_diagnostics now (Except.ok micC) (Except.error e) tts hotkeys avatar ptt =
      Except.error e ∧
    Watchdog.pollCycleReport (Watchdog.run_diagnostics now (Except.ok micC)
      (Except.error e) tts hotkeys avatar ptt) = none :=
  ⟨rfl, rfl⟩

/-- Counterexample for C2: with `SELF_UPDATE_AUTO_ROLLBACK` configured
off, a run whose merge succeeds and whose tests fail emits the
`update_failed` notification but performs neither the hard reset nor the
backup restore, so the rollback is not "always" performed. -/
theorem C2_counterexample :
    ¬ c2ClaimHolds { enabled := true, inWindow := true, autoRollback := false } false
      { hasUpdates := true, changed := ["a.py", "b.py", "c.py", "d.py", "e.py"],
        remoteSha := "bead1234", backupPath := "logs/snapshots/backup.zip",
        mergeOk := true, mergeMsg := "", testsOk := false,
        testOutput := "1 failed, 3 passed" } := by
  unfold c2ClaimHolds
  decide

/-- C2 (amended): whenever the merge succeeds, the test run fails, and
auto-rollback is enabled (its default configuration), the flow performs
the hard reset `git reset --hard HEAD~1`, then restores the pre-merge
backup, then emits an `update_failed` notification whose details are the
test output truncated to 500 characters; with auto-rollback disabled
only the notification is emitted. -/
theorem C2_rollback_on_test_failure (cfg : SelfUpdate.UpdateConfig) (force : Bool)
    (env : SelfUpdate.UpdateEnv) (hen : cfg.enabled = true)
    (hw : force = true ∨ cfg.inWindow = true) (hu : env.hasUpdates = true)
    (hm : env.mergeOk = true) (ht : env.testsOk = false) (hrb : cfg.autoRollback = true) :
    (SelfUpdate.run_full_autonomy_flow cfg force env).2 =
      [SelfUpdate.UpdateEvent.notifyEv "update_check" "Checking for updates" "",
       SelfUpdate.UpdateEvent.backupEv env.backupPath,
       SelfUpdate.UpdateEvent.gitResetHardEv "HEAD~1",
       SelfUpdate.UpdateEvent.restoreBackupEv env.backupPath,
       SelfUpdate.UpdateEvent.notifyEv "update_failed" "Tests failed, rolled back"
         (strTake env.testOutput 500)] ∧
    (strTake env.testOutput 500).length ≤ 500 ∧
    (SelfUpdate.run_full_autonomy_flow cfg force env).1.success = false := by
  have hlen : ∀ (s : String) (n : Nat), (strTake s n).length ≤ n := by
    intro s n
    show (List.take n s.toList).length ≤ n
    simp [List.length_take]
  unfold SelfUpdate.run_full_autonomy_flow
  rw [hen, hu, hm, ht, hrb]
  rcases hw with hf | hwin
  · rw [hf]
    exact ⟨rfl, hlen _ _, rfl⟩
  · rw [hwin]
    cases force <;> exact ⟨rfl, hlen _ _, rfl⟩

/-- Witness for C2 (amended): a concrete failing-update run with
auto-rollback on. -/
theorem C2_witness :
    (SelfUpdate.run_full_autonomy_flow
        { enabled := true, inWindow := true, autoRollback := true } false
        { hasUpdates := true, changed := ["a.py", "b.py", "c.py", "d.py", "e.py"],
          remoteSha := "bead1234", backupPath := "logs/snapshots/backup.zip",
          mergeOk := true, mergeMsg := "", testsOk := false,
          testOutput := "1 failed, 3 passed" }).2 =
      [SelfUpdate.UpdateEvent.notifyEv "update_check" "Checking for updates" "",
       SelfUpdate.UpdateEvent.backupEv "logs/snapshots/backup.zip",
       SelfUpdate.UpdateEvent.gitResetHardEv "HEAD~1",
       SelfUpdate.UpdateEvent.restoreBackupEv "logs/snapshots/backup.zip",
       SelfUpdate.UpdateEvent.notifyEv "update_failed" "Tests failed, rolled back"
         (strTake "1 failed, 3 passed" 500)] :=
  (C2_rollback_on_test_failure
    { enabled := true, inWindow := true, autoRollback := true } false
    { hasUpdates := true, changed := ["a.py", "b.py", "c.py", "d.py", "e.py"],
      remoteSha := "bead1234", backupPath := "logs/snapshots/backup.zip",
      mergeOk := true, mergeMsg := "", testsOk := false,
      testOutput := "1 failed, 3 passed" }
    rfl (Or.inr rfl) rfl rfl rfl rfl).1

section GitLemmas

theorem length_filter_le_of_imp {α : Type} (p q : α → Bool) (l : List α)
    (h : ∀ a ∈ l, p a = true → q a = true) :
    (l.filter p).length ≤ (l.filter q).length := by
  induction l with
  | nil => simp
  | cons a as ih =>
      have ih' := ih (fun x hx hpx => h x (List.mem_cons_of_mem _ hx) hpx)
      by_cases hp : p a = true
      · have hq := h a (List.mem_cons_self _ _) hp
        rw [List.filter_cons_of_pos hp, List.filter_cons_of_pos hq]
        simpa using ih'
      · rw [List.filter_cons_of_neg hp]
        by_cases hq : q a = true
        · rw [List.filter_cons_of_pos hq]
          exact ih'.trans (by simp)
        · rw [List.filter_cons_of_neg hq]
          exact ih'

end GitLemmas

/-- Counterexample for C4: with an empty commit window but nothing
staged (`git status --porcelain` prints nothing), `commit_patch` returns
the current revision with `ok = true` — not the claimed silent refusal
`("", false)`. -/
theorem C4_counterexample :
    ¬ c4ClaimHolds [] 1000 "fix(core): patch tokenizer" none
      { diffStat := "", statusPorcelain := "", commitOk := true,
        headBefore := "abc123", headAfter := "def456" } := by
  unfold c4ClaimHolds
  decide

/-- C4 (amended): when the rolling past hour already holds the maximum
number of commits, `commit_patch` refuses silently — `("", false)`, no
staging, no commit; when the window is open and nothing is staged, the
call creates no commit but returns `ok = true` together with the current
revision (rather than refusing). -/
theorem C4_commit_patch_refusals (ts : List Int) (now : Int) (msg : String)
    (files : Option (List String)) (env : GitHelper.CommitEnv) :
    (GitHelper.MAX_COMMITS_PER_HOUR ≤
        (ts.filter (fun t => 0 ≤ now - t ∧ now - t < 3600)).length →
      GitHelper.commit_patch ts now msg files env =
        (("", false), ts.filter (fun t => GitHelper.timedeltaSeconds now t < 3600), [])) ∧
    ((ts.filter (fun t => GitHelper.timedeltaSeconds now t < 3600)).length <
        GitHelper.MAX_COMMITS_PER_HOUR →
      GitHelper.parseLinesChanged env.diffStat ≤ GitHelper.MAX_LINES_PER_COMMIT →
      env.statusPorcelain = "" →
      (GitHelper.commit_patch ts now msg files env).1 = (env.headBefore, true) ∧
      ∀ m, GitHelper.GitEvent.commitCreated m ∉
        (GitHelper.commit_patch ts now msg files env).2.2) := by
  constructor
  · intro hcount
    have himp : ∀ t ∈ ts, decide (0 ≤ now - t ∧ now - t < 3600) = true →
        decide (GitHelper.timedeltaSeconds now t < 3600) = true := by
      intro t _ hd
      rw [decide_eq_true_eq] at hd ⊢
      have : GitHelper.timedeltaSeconds now t = now - t := by
        unfold GitHelper.timedeltaSeconds
        exact Int.emod_eq_of_lt hd.1 (by omega)
      omega
    have hmono := length_filter_le_of_imp _ _ ts himp
    have hge : GitHelper.MAX_COMMITS_PER_HOUR ≤
        (ts.filter (fun t => GitHelper.timedeltaSeconds now t < 3600)).length :=
      le_trans hcount hmono
    unfold GitHelper.commit_patch
    rw [if_pos hge]
  · intro hcount hlines hstatus
    unfold GitHelper.commit_patch
    rw [if_neg (by omega), if_neg (by omega)]
    constructor
    · simp [hstatus]
    · intro m
      simp only [hstatus]
      cases files with
      | none => simp
      | some fs =>
          cases fs with
          | nil => simp
          | cons f0 frest => simp

/-- Witness for C4 (amended): a 4th commit inside the rolling hour is
refused with no commit event; a commit with nothing staged returns the
current revision with ok = true. -/
theorem C4_witness :
    GitHelper.commit_patch [100, 200, 300] 1000 "fix(core): patch tokenizer" none
        { diffStat := "", statusPorcelain := "M core/a.py", commitOk := true,
          headBefore := "abc123", headAfter := "def456" } =
      (("", false), [100, 200, 300], []) ∧
    (GitHelper.commit_patch [] 1000 "fix(core): patch tokenizer" none
        { diffStat := "", statusPorcelain := "", commitOk := true,
          headBefore := "abc123", headAfter := "def456" }).1 = ("abc123", true) := by
  constructor
  · exact ((C4_commit_patch_refusals [100, 200, 300] 1000 "fix(core): patch tokenizer" none
      { diffStat := "", statusPorcelain := "M core/a.py", commitOk := true,
        headBefore := "abc123", headAfter := "def456" }).1 (by decide)).trans (by decide)
  · exact ((C4_commit_patch_refusals [] 1000 "fix(core): patch tokenizer" none
      { diffStat := "", statusPorcelain := "", commitOk := true,
        headBefore := "abc123", headAfter := "def456" }).2 (by decide) (by decide) rfl).1

/-- Counterexample for C5: `validate_diff_before_commit` also accepts a
changed file whose basename matches an expected file — `other/a.py`
matches `core/a.py` neither by exact path nor by suffix, yet validation
returns ok = true, contradicting the claim as stated. -/
theorem C5_counterexample :
    ¬ c5ClaimHolds ["core/a.py"] ["other/a.py"] 1 ∧
    GitHelper.validate_diff_before_commit ["core/a.py"] ["other/a.py"] 1 =
      (true, GitHelper.DiffReason.valid 1 1) := by
  constructor
  · unfold c5ClaimHolds
    decide
  · decide

/-- C5 (amended): validation returns ok = false whenever some changed
file matches no expected file by basename, by exact path, or by suffix,
or whenever the total changed-line count exceeds `MAX_LINES_PER_COMMIT`. -/
theorem C5_validate_diff_rejects (expected changed : List String) (totalLines : Nat) :
    ((∃ f ∈ changed,
        (expected.map GitHelper.pathName).contains (GitHelper.pathName f) = false ∧
        expected.contains f = false ∧
        expected.any (fun e => endsWithSub f e) = false) ∨
      GitHelper.MAX_LINES_PER_COMMIT < totalLines) →
    (GitHelper.validate_diff_before_commit expected changed totalLines).1 = false := by
  intro h
  unfold GitHelper.validate_diff_before_commit
  rcases h with ⟨f, hmem, h1, h2, h3⟩ | hl
  · have hne : changed.isEmpty = false := by
      cases changed with
      | nil => cases hmem
      | cons x xs => rfl
    have hmemf : f ∈ changed.filter (fun f =>
        (!((expected.map GitHelper.pathName).contains (GitHelper.pathName f))) &&
          (!(expected.contains f)) && (!(expected.any (fun e => endsWithSub f e)))) :=
      List.mem_filter.mpr ⟨hmem, by rw [h1, h2, h3]; rfl⟩
    have hne2 : (changed.filter (fun f =>
        (!((expected.map GitHelper.pathName).contains (GitHelper.pathName f))) &&
          (!(expected.contains f)) && (!(expected.any (fun e => endsWithSub f e))))).isEmpty
          = false := by
      cases heq : changed.filter (fun f =>
          (!((expected.map GitHelper.pathName).contains (GitHelper.pathName f))) &&
            (!(expected.contains f)) && (!(expected.any (fun e => endsWithSub f e)))) with
      | nil => rw [heq] at hmemf; cases hmemf
      | cons x xs => rfl
    simp only [hne, Bool.false_eq_true, if_false, hne2, Bool.not_false, if_true]
  · by_cases he : changed.isEmpty = true
    · rw [if_pos he]
    · rw [if_neg he]
      by_cases hu : (!(changed.filter (fun f =>
          (!((expected.map GitHelper.pathName).contains (GitHelper.pathName f))) &&
            (!(expected.contains f)) &&
            (!(expected.any (fun e => endsWithSub f e))))).isEmpty) = true
      · rw [if_pos hu]
      · rw [if_neg hu, if_pos hl]

/-- Witness for C5 (amended): the spec example — expected
`["core/a.py"]`, changed `{"core/a.py", "notes.txt"}` — is rejected,
with `notes.txt` reported as the unexpected file. -/
theorem C5_witness :
    (GitHelper.validate_diff_before_commit ["core/a.py"] ["core/a.py", "notes.txt"] 2).1 =
      false ∧
    GitHelper.validate_diff_before_commit ["core/a.py"] ["core/a.py", "notes.txt"] 2 =
      (false, GitHelper.DiffReason.unexpectedFiles ["notes.txt"]) :=
  ⟨C5_validate_diff_rejects ["core/a.py"] ["core/a.py", "notes.txt"] 2
      (Or.inl ⟨"notes.txt", by decide, by decide, by decide, by decide⟩),
   by decide⟩

/-- Counterexample for C1: a successful escalated fix (patch generated,
applied, tests passing) whose trace contains no isolated-branch step — 
nor diff validation, commit, merge — so the spec's escalation sequence
does not occur in the claimed order. -/
theorem C1_counterexample :
    ¬ c1ClaimHolds
      (AutoCoder.analyze_and_fix "speech asr broken" [("speech/asr.py", "import whisper")]
        { analysis := "bad model load", target_file := "speech/asr.py",
          confidence := 9/10, suggested_fix := "reload model" }
        { success := true, explanation := some "patch ready",
          patch := "@@ -10 +10 @@", model := "codegen-test" }
        "reload the model on failure" (true, "Patch applied") (true, "2 passed")).2
      true := by
  unfold c1ClaimHolds
  decide

/-- C1 (amended): on every escalated fix that reaches the apply step,
`analyze_and_fix` obtains the candidate patch from the collaborator
first, then creates a snapshot, applies the patch to the target file,
and runs the test suite; on passing tests it records the fix in the
patch log, on failing tests it reverts the single target file from the
snapshot and records the failure, with a 500-character excerpt of the
test output, in the patch log and the failure log.  It starts no
isolated branch, validates no diff, performs no commit or merge, and
creates no git failure tag. -/
theorem C1_actual_escalation_order (issue f0 c0 : String) (rest : List (String × String))
    (analysis : AutoCoder.AnalysisResult) (patchResult : AutoCoder.PatchGenResult)
    (explanation : String) (applyRes testRes : Bool × String)
    (hgen : patchResult.success = true) (happ : applyRes.1 = true) :
    (AutoCoder.analyze_and_fix issue ((f0, c0) :: rest) analysis patchResult explanation
        applyRes testRes).2 =
      [AutoCoder.CoderEvent.getPatchEv (AutoCoder.chooseTarget analysis f0),
       AutoCoder.CoderEvent.snapshotEv "autofix",
       AutoCoder.CoderEvent.applyPatchEv (AutoCoder.chooseTarget analysis f0),
       AutoCoder.CoderEvent.runTestsEv] ++
        (if testRes.1 then [AutoCoder.CoderEvent.logActionEv "autofix" explanation]
         else [AutoCoder.CoderEvent.revertFileEv (AutoCoder.chooseTarget analysis f0),
               AutoCoder.CoderEvent.logActionEv "autofix_rollback"
                 ("Rollback: " ++ strTake testRes.2 500),
               AutoCoder.CoderEvent.writeFailLogEv issue]) ∧
    ((AutoCoder.analyze_and_fix issue ((f0, c0) :: rest) analysis patchResult explanation
        applyRes testRes).2.map AutoCoder.CoderEvent.kind).contains
      AutoCoder.CoderKind.branchK = false ∧
    ((AutoCoder.analyze_and_fix issue ((f0, c0) :: rest) analysis patchResult explanation
        applyRes testRes).2.map AutoCoder.CoderEvent.kind).contains
      AutoCoder.CoderKind.validateK = false ∧
    ((AutoCoder.analyze_and_fix issue ((f0, c0) :: rest) analysis patchResult explanation
        applyRes testRes).2.map AutoCoder.CoderEvent.kind).contains
      AutoCoder.CoderKind.commitK = false ∧
    ((AutoCoder.analyze_and_fix issue ((f0, c0) :: rest) analysis patchResult explanation
        applyRes testRes).2.map AutoCoder.CoderEvent.kind).contains
      AutoCoder.CoderKind.mergeK = false ∧
    ((AutoCoder.analyze_and_fix issue ((f0, c0) :: rest) analysis patchResult explanation
        applyRes testRes).2.map AutoCoder.CoderEvent.kind).contains
      AutoCoder.CoderKind.tagK = false := by
  cases ht : testRes.1 <;>
    simp [AutoCoder.analyze_and_fix, hgen, happ, ht, AutoCoder.CoderEvent.kind,
      List.contains]

/-- Witness for C1 (amended): a concrete escalated fix whose tests fail;
the trace is exactly collaborator patch → snapshot → apply → tests →
revert → failure logging. -/
theorem C1_witness :
    (AutoCoder.analyze_and_fix "mic broken" [("speech/asr.py", "import whisper")]
        { analysis := "device error", target_file := "speech/asr.py", confidence := 1,
          suggested_fix := "switch device" }
        { success := true, explanation := some "ready", patch := "@@ -1 +1 @@",
          model := "codegen-test" }
        "switch to cpu" (true, "Patch applied") (false, "FAILED: test_asr")).2 =
      [AutoCoder.CoderEvent.getPatchEv "speech/asr.py",
       AutoCoder.CoderEvent.snapshotEv "autofix",
       AutoCoder.CoderEvent.applyPatchEv "speech/asr.py",
       AutoCoder.CoderEvent.runTestsEv,
       AutoCoder.CoderEvent.revertFileEv "speech/asr.py",
       AutoCoder.CoderEvent.logActionEv "autofix_rollback"
         ("Rollback: " ++ strTake "FAILED: test_asr" 500),
       AutoCoder.CoderEvent.writeFailLogEv "mic broken"] := by
  have h := C1_actual_escalation_order "mic broken" "speech/asr.py" "import whisper" []
    { analysis := "device error", target_file := "speech/asr.py", confidence := 1,
      suggested_fix := "switch device" }
    { success := true, explanation := some "ready", patch := "@@ -1 +1 @@",
      model := "codegen-test" }
    "switch to cpu" (true, "Patch applied") (false, "FAILED: test_asr") rfl rfl
  refine h.1.trans ?_
  norm_num [AutoCoder.chooseTarget]

/-- Witness for C3: two failed actions trigger exactly one appended
`autonomous_fix` entry; a single failed action triggers none. -/
theorem C3_witness :
    RepairEngine.execute_plan_with_autonomy
        [{ name := "restart_asr", result := RepairEngine.RepairResult.failed,
           message := "Model still None after reload" },
         { name := "restart_tts", result := RepairEngine.RepairResult.failed,
           message := "engine unavailable" }]
        "speech pipeline down"
        (fun _ => { success := false, message := "no automated fix", patch_applied := false,
                    tests_passed := false, files_changed := [], rollback_performed := false,
                    explanation := "", model_used := "" })
        "snapdir" =
      [{ name := "restart_asr", result := RepairEngine.RepairResult.failed,
         message := "Model still None after reload" },
       { name := "restart_tts", result := RepairEngine.RepairResult.failed,
         message := "engine unavailable" },
       { name := "autonomous_fix", result := RepairEngine.RepairResult.failed,
         message := "no automated fix", duration := 0, snapshot_path := some "snapdir" }] ∧
    RepairEngine.execute_plan_with_autonomy
        [{ name := "restart_asr", result := RepairEngine.RepairResult.failed,
           message := "Model still None after reload" },
         { name := "reset_ptt_state", result := RepairEngine.RepairResult.success,
           message := "PTT reset" }]
        "speech pipeline down"
        (fun _ => { success := false, message := "no automated fix", patch_applied := false,
                    tests_passed := false, files_changed := [], rollback_performed := false,
                    explanation := "", model_used := "" })
        "snapdir" =
      [{ name := "restart_asr", result := RepairEngine.RepairResult.failed,
         message := "Model still None after reload" },
       { name := "reset_ptt_state", result := RepairEngine.RepairResult.success,
         message := "PTT reset" }] := by
  constructor
  · refine (((C3_autonomous_fix_appended
      [{ name := "restart_asr", result := RepairEngine.RepairResult.failed,
         message := "Model still None after reload" },
       { name := "restart_tts", result := RepairEngine.RepairResult.failed,
         message := "engine unavailable" }]
      "speech pipeline down"
      (fun _ => { success := false, message := "no automated fix", patch_applied := false,
                  tests_passed := false, files_changed := [], rollback_performed := false,
                  explanation := "", model_used := "" })
      "snapdir").1 (by decide)).1).trans ?_
    decide
  · exact (C3_autonomous_fix_appended
      [{ name := "restart_asr", result := RepairEngine.RepairResult.failed,
         message := "Model still None after reload" },
       { name := "reset_ptt_state", result := RepairEngine.RepairResult.success,
         message := "PTT reset" }]
      "speech pipeline down"
      (fun _ => { success := false, message := "no automated fix", patch_applied := false,
                  tests_passed := false, files_changed := [], rollback_performed := false,
                  explanation := "", model_used := "" })
      "snapdir").2 (by decide)
